import Mathlib

/-!
Verification of the rendering core of T2-Press (`build.py`): rich-text
composition, embed-URL normalization, list rendering and regrouping, and
block-to-HTML dispatch.  Python dictionaries carrying Notion blocks are
embedded as Lean structures; the external `pygments` highlighter is kept
abstract as function parameters; the Notion child-fetch is embedded by
storing each block's fetched children inside the block tree.
-/

/-- A Notion rich-text span: plain text, the annotation flags read by
`render_rich_text`, and an optional hyperlink. -/
structure RichTextSpan where
  plain_text : String
  bold : Bool
  italic : Bool
  strikethrough : Bool
  underline : Bool
  code : Bool
  href : Option String
deriving DecidableEq, Repr

/-- One span of `render_rich_text` (`build.py` lines 102-114): the body of the
`for t in texts` loop, applying the conditional wraps in source order. -/
def renderSpan (t : RichTextSpan) : String :=
  let txt := t.plain_text
  let txt := if t.code then "<code>" ++ txt ++ "</code>" else txt
  let txt := if t.bold then "<strong>" ++ txt ++ "</strong>" else txt
  let txt := if t.italic then "<em>" ++ txt ++ "</em>" else txt
  let txt := if t.strikethrough then "<del>" ++ txt ++ "</del>" else txt
  let txt := if t.underline then "<u>" ++ txt ++ "</u>" else txt
  match t.href with
  | some h => "<a href=\"" ++ h ++ "\">" ++ txt ++ "</a>"
  | none => txt

/-- Function `render_rich_text` (`build.py` lines 96-115): map the loop body over the
spans and join the results (`"".join(result)`). -/
def render_rich_text (texts : List RichTextSpan) : String :=
  String.join (texts.map renderSpan)

/-- Auxiliary scan for the substring test: does `sub` occur in the list? -/
def containsAux (sub : List Char) : List Char → Bool
  | [] => sub.isEmpty
  | c :: rest => sub.isPrefixOf (c :: rest) || containsAux sub rest

/-- Python's `sub in s` substring test. -/
def strContains (s sub : String) : Bool :=
  containsAux sub.data s.data

/-- If `sep` is a prefix of the list, return the remainder after it. -/
def dropPrefixOpt : List Char → List Char → Option (List Char)
  | [], l => some l
  | _ :: _, [] => none
  | s :: ss, c :: cs => if c = s then dropPrefixOpt ss cs else none

/-- Python's `s.split(sep)` on character lists, for a non-empty separator:
non-overlapping occurrences, scanned left to right.  The `Nat` argument is
structural fuel; `pySplit` passes the list length, which always suffices
because each separator match consumes at least one character. -/
def pySplitFuel (sep : List Char) : Nat → List Char → List (List Char)
  | _, [] => [[]]
  | 0, c :: rest => [c :: rest]
  | n + 1, c :: rest =>
    match dropPrefixOpt sep (c :: rest) with
    | some rem => [] :: pySplitFuel sep n rem
    | none =>
      match pySplitFuel sep n rest with
      | [] => [c :: rest]
      | chunk :: chunks => (c :: chunk) :: chunks

/-- Python's `s.split(sep)` for a non-empty separator. -/
def pySplit (s sep : String) : List String :=
  (pySplitFuel sep.data s.data.length s.data).map fun l => String.mk l

/-- Python's `s.split(sep)[-1]` for a non-empty separator. -/
def splitLast (s sep : String) : String :=
  (pySplit s sep).getLastD s

/-- Python's `s.split(sep)[0]` for a non-empty separator. -/
def splitHead (s sep : String) : String :=
  (pySplit s sep).headD s

/-- Function `convert_embed_url` (`build.py` lines 149-172): rewrite YouTube and
Nicovideo URLs to their embed forms, otherwise return the URL unchanged. -/
def convert_embed_url (url : String) : String :=
  if strContains url "youtu.be" then
    "https://www.youtube.com/embed/" ++ splitLast url "/"
  else if strContains url "youtube.com/watch?v=" then
    "https://www.youtube.com/embed/" ++ splitHead (splitLast url "v=") "&"
  else if strContains url "nicovideo.jp/watch/" then
    "https://embed.nicovideo.jp/watch/" ++ splitLast url "/"
  else
    url

/-- The nesting the specification prescribes for one span: code innermost,
then bold, italic, strikethrough, underline, link outermost, each wrap applied
exactly when its flag or value is present. -/
def specSpanNesting (t : RichTextSpan) : String :=
  let afterCode := if t.code then "<code>" ++ t.plain_text ++ "</code>" else t.plain_text
  let afterBold := if t.bold then "<strong>" ++ afterCode ++ "</strong>" else afterCode
  let afterItalic := if t.italic then "<em>" ++ afterBold ++ "</em>" else afterBold
  let afterStrike := if t.strikethrough then "<del>" ++ afterItalic ++ "</del>" else afterItalic
  let afterUnder := if t.underline then "<u>" ++ afterStrike ++ "</u>" else afterStrike
  match t.href with
  | some h => "<a href=\"" ++ h ++ "\">" ++ afterUnder ++ "</a>"
  | none => afterUnder

/-- C1: every span is styled by wrapping its plain text in `<code>`, then
`<strong>`, then `<em>`, then `<del>`, then `<u>`, then `<a href=...>`, each
wrap only when its flag/value is present and always in that fixed order; in
particular a bold+italic+href span renders as
`<a href="H"><em><strong>TEXT</strong></em></a>`. -/
theorem c1_rich_text_nesting_order :
    (∀ t : RichTextSpan, renderSpan t = specSpanNesting t) ∧
    (∀ ts : List RichTextSpan, render_rich_text ts = String.join (ts.map specSpanNesting)) ∧
    (∀ txt h : String,
      renderSpan ⟨txt, true, true, false, false, false, some h⟩ =
        "<a href=\"" ++ h ++ "\">" ++
          ("<em>" ++ ("<strong>" ++ txt ++ "</strong>") ++ "</em>") ++ "</a>") := by
  refine ⟨fun t => rfl, fun ts => ?_, fun txt h => rfl⟩
  simp only [render_rich_text]
  congr 1

/-- C3: `convert_embed_url` maps the three documented URL shapes to their
embed forms, leaves any URL matching none of the three patterns unchanged,
and applies the checks first-match-wins so only one substitution applies. -/
theorem c3_convert_embed_url :
    convert_embed_url "https://youtu.be/abc123" = "https://www.youtube.com/embed/abc123" ∧
    convert_embed_url "https://www.youtube.com/watch?v=XYZ&t=5" =
      "https://www.youtube.com/embed/XYZ" ∧
    convert_embed_url "https://www.nicovideo.jp/watch/sm999" =
      "https://embed.nicovideo.jp/watch/sm999" ∧
    (∀ url : String,
      strContains url "youtu.be" = false →
      strContains url "youtube.com/watch?v=" = false →
      strContains url "nicovideo.jp/watch/" = false →
      convert_embed_url url = url) ∧
    (∀ url : String, strContains url "youtu.be" = true →
      convert_embed_url url = "https://www.youtube.com/embed/" ++ splitLast url "/") ∧
    (∀ url : String, strContains url "youtu.be" = false →
      strContains url "youtube.com/watch?v=" = true →
      convert_embed_url url =
        "https://www.youtube.com/embed/" ++ splitHead (splitLast url "v=") "&") ∧
    (∀ url : String, strContains url "youtu.be" = false →
      strContains url "youtube.com/watch?v=" = false →
      strContains url "nicovideo.jp/watch/" = true →
      convert_embed_url url = "https://embed.nicovideo.jp/watch/" ++ splitLast url "/") := by
  refine ⟨by decide, by decide, by decide, ?_, ?_, ?_, ?_⟩
  · intro url h1 h2 h3
    simp [convert_embed_url, h1, h2, h3]
  · intro url h1
    simp [convert_embed_url, h1]
  · intro url h1 h2
    simp [convert_embed_url, h1, h2]
  · intro url h1 h2 h3
    simp [convert_embed_url, h1, h2, h3]

/-- Witness for C3 at concrete URLs. -/
theorem c3_convert_embed_url_witness :
    convert_embed_url "https://example.com/page" = "https://example.com/page" :=
  c3_convert_embed_url.2.2.2.1 "https://example.com/page" (by decide) (by decide) (by decide)

/-- A Notion content block as consumed by `build.py`.  The dictionary fields
the renderer reads are embedded as typed fields; `children` holds the list the
Notion client would return for `blocks.children.list(block_id=id)`, so the
child-fetch capability is embedded as the block tree itself.  For table blocks
the children are the row blocks, and `cells` holds a row block's
`table_row.cells` grid. -/
inductive Block where
  | mk (type : String) (id : String) (has_children : Bool)
      (rich_text : List RichTextSpan) (language : String) (checked : Bool)
      (url : String) (external_url : Option String) (file_url : Option String)
      (caption : List RichTextSpan) (cells : List (List RichTextSpan))
      (children : List Block) : Block

/-- The block's `type` discriminant. -/
def Block.type : Block → String
  | .mk t _ _ _ _ _ _ _ _ _ _ _ => t

/-- The block's opaque identifier. -/
def Block.id : Block → String
  | .mk _ i _ _ _ _ _ _ _ _ _ _ => i

/-- The block's `has_children` flag. -/
def Block.has_children : Block → Bool
  | .mk _ _ h _ _ _ _ _ _ _ _ _ => h

/-- The payload's `rich_text` list (empty when the payload has none). -/
def Block.rich_text : Block → List RichTextSpan
  | .mk _ _ _ r _ _ _ _ _ _ _ _ => r

/-- The code payload's `language` tag. -/
def Block.language : Block → String
  | .mk _ _ _ _ l _ _ _ _ _ _ _ => l

/-- The to-do payload's `checked` flag. -/
def Block.checked : Block → Bool
  | .mk _ _ _ _ _ c _ _ _ _ _ _ => c

/-- The embed payload's `url`. -/
def Block.url : Block → String
  | .mk _ _ _ _ _ _ u _ _ _ _ _ => u

/-- The media payload's `external.url`, when present. -/
def Block.external_url : Block → Option String
  | .mk _ _ _ _ _ _ _ e _ _ _ _ => e

/-- The media payload's `file.url`, when present. -/
def Block.file_url : Block → Option String
  | .mk _ _ _ _ _ _ _ _ f _ _ _ => f

/-- The image payload's `caption` spans. -/
def Block.caption : Block → List RichTextSpan
  | .mk _ _ _ _ _ _ _ _ _ c _ _ => c

/-- The `table_row.cells` grid of a row block. -/
def Block.cells : Block → List (List RichTextSpan)
  | .mk _ _ _ _ _ _ _ _ _ _ c _ => c

/-- The children the Notion client returns for this block's id. -/
def Block.children : Block → List Block
  | .mk _ _ _ _ _ _ _ _ _ _ _ ch => ch

mutual

/-- Function `render_list_block` (`build.py` lines 128-146): render one list-item block
as `<li>`, recursing into its fetched children inside a nested list whose tag
comes from this block's own type. -/
def render_list_block (block : Block) : String :=
  match block with
  | .mk btype _ has_children rich_text _ _ _ _ _ _ _ children =>
    let tag := if btype = "bulleted_list_item" then "ul" else "ol"
    let text := render_rich_text rich_text
    let html := "<li>" ++ text
    let html :=
      if has_children then
        if children.isEmpty then html
        else
          html ++ "\n<" ++ tag ++ ">" ++ renderListChildren children ++ "</" ++ tag ++ ">"
      else html
    html ++ "</li>\n"

/-- The `for child in children` loop inside `render_list_block`. -/
def renderListChildren : List Block → String
  | [] => ""
  | b :: bs => render_list_block b ++ renderListChildren bs

end

/-- Python's whitespace test for `str.strip()`. -/
def pyIsSpace (c : Char) : Bool :=
  c = ' ' || c = '\t' || c = '\n' || c = '\r' || c = '\x0b' || c = '\x0c'

/-- Python's `s.strip()`: remove leading and trailing whitespace. -/
def pyStrip (s : String) : String :=
  String.mk (((s.data.dropWhile pyIsSpace).reverse.dropWhile pyIsSpace).reverse)

/-- Python's `s.lower()`. -/
def pyLower (s : String) : String :=
  String.mk (s.data.map Char.toLower)

/-- Python's `s.startswith(pre)`. -/
def strStarts (s pre : String) : Bool :=
  pre.data.isPrefixOf s.data

/-- Python's `a or b` for the media-URL resolution
`data.get("external", {}).get("url") or data.get("file", {}).get("url", "")`:
a missing or empty external URL falls back to the attached-file URL. -/
def resolveMediaUrl (ext fileUrl : Option String) : String :=
  match ext with
  | some u => if u = "" then fileUrl.getD "" else u
  | none => fileUrl.getD ""

/-- Python's `s.split(sep, 1)[-1]`: everything after the first occurrence of
`sep`, or `s` itself when `sep` does not occur. -/
def splitOnceTail (s sep : String) : String :=
  match pySplit s sep with
  | [] => s
  | [x] => x
  | _ :: rest => String.intercalate sep rest

/-- The text before `%s` in the corner-cell template of `build.py`. -/
def cornerCellPre : String :=
  "\n    <th class=\"corner-cell\">\n    <svg class=\"corner-line\" xmlns=\"http://www.w3.org/2000/svg\" viewBox=\"0 0 100 100\" preserveAspectRatio=\"none\">\n        <line x1=\"0\" y1=\"0\" x2=\"100\" y2=\"100\" stroke=\"black\" stroke-width=\"2\"/>\n    </svg>\n    "

/-- The text after `%s` in the corner-cell template of `build.py`. -/
def cornerCellPost : String :=
  "\n    </th>\n    "

/-- The per-cell body of the table loop in `render_block_html` (`build.py`
lines 229-251): classify the cell by a sentinel prefix of its composed,
stripped text. -/
def renderTableCell (cell : List RichTextSpan) : String :=
  let raw := pyStrip (render_rich_text cell)
  if strStarts raw "corner::" then
    cornerCellPre ++ splitOnceTail raw "::" ++ cornerCellPost
  else if strStarts raw "th::" then
    "<th>" ++ raw.drop 4 ++ "</th>"
  else
    "<td>" ++ raw ++ "</td>"

/-- Function `render_block_html` (`build.py` lines 175-278), with the `pygments`
collaborators abstracted: `gl` is `get_lexer_by_name` (`none` models the
exception), `hl` is `highlight` with the fixed `HtmlFormatter(nowrap=True)`,
and `tl` is `TextLexer()`.  Returns the HTML fragment together with the list
of `logger.info` diagnostics the branch emits. -/
def render_block_html {Lexer : Type} (gl : String → Option Lexer)
    (hl : Lexer → String → String) (tl : Lexer) (block : Block) :
    String × List String :=
  let btype := block.type
  let text := render_rich_text block.rich_text
  if btype = "paragraph" then
    ("<p>" ++ text ++ "</p>", [])
  else if strStarts btype "heading_" then
    let level := String.mk [btype.data.getLastD ' ']
    ("<h" ++ level ++ ">" ++ text ++ "</h" ++ level ++ ">", [])
  else if btype = "quote" then
    ("<blockquote>" ++ text ++ "</blockquote>", [])
  else if btype = "code" then
    let lang := pyLower (pyStrip block.language)
    let code_text := String.join (block.rich_text.map fun t => t.plain_text)
    let lexerAndDiag : Lexer × List String :=
      if lang ≠ "" then
        match gl lang with
        | some lx => (lx, [])
        | none => (tl, ["⚠️ 未対応の言語 " ++ lang ++ " → fallback to TextLexer"])
      else (tl, [])
    ("<div class=\"code-block\"><pre>" ++ hl lexerAndDiag.1 code_text ++ "</pre></div>",
      ("💡 コードブロック言語: " ++ lang) :: lexerAndDiag.2)
  else if btype = "bulleted_list_item" ∨ btype = "numbered_list_item" then
    (render_list_block block, [])
  else if btype = "to_do" then
    let checkedStr := if block.checked then "checked" else ""
    ("<div class=\"checkbox\"><label><input type=\"checkbox\" disabled " ++ checkedStr ++
      "> " ++ text ++ "</label></div>", [])
  else if btype = "table" then
    let rows := block.children
    ("<table>" ++
      String.join (rows.map fun row =>
        "<tr>" ++ String.join (row.cells.map renderTableCell) ++ "</tr>") ++
      "</table>", [])
  else if btype = "embed" then
    let embed_url := convert_embed_url block.url
    ("<iframe src=\"" ++ embed_url ++
      "\" title=\"埋め込み\" frameborder=\"0\" loading=\"lazy\" allowfullscreen style=\"width:100%;height:400px;\"></iframe>", [])
  else if btype = "video" then
    let url := resolveMediaUrl block.external_url block.file_url
    let embed_url := convert_embed_url url
    if strContains embed_url "youtube.com" || strContains embed_url "nicovideo.jp" then
      ("<iframe src=\"" ++ embed_url ++
        "\" title=\"動画\" frameborder=\"0\" allowfullscreen loading=\"lazy\" style=\"width:100%;height:400px;\"></iframe>", [])
    else
      ("<video src=\"" ++ url ++ "\" controls style=\"max-width: 100%; height: auto;\"></video>", [])
  else if btype = "divider" then
    ("<hr>", [])
  else if btype = "image" then
    let image_url := resolveMediaUrl block.external_url block.file_url
    let caption := render_rich_text block.caption
    ("<figure><img src=\"" ++ image_url ++ "\" alt=\"" ++ caption ++
      "\" style=\"max-width:100%;\"/><figcaption>" ++ caption ++ "</figcaption></figure>", [])
  else
    ("<div>" ++ text ++ "</div>", ["⚠️ 未対応のブロックタイプ: " ++ btype])

/-- Python's `sep.join(parts)`. -/
def pyJoin (sep : String) : List String → String
  | [] => ""
  | [x] => x
  | x :: y :: xs => x ++ sep ++ pyJoin sep (y :: xs)

/-- The sibling-sequence grouping loop of `notion_pull` (`build.py` lines
349-368) together with its trailing close: walk the blocks with the
`current_list_tag` state, emitting one string per `html_blocks.append`. -/
def groupGo {Lexer : Type} (gl : String → Option Lexer) (hl : Lexer → String → String)
    (tl : Lexer) : List Block → Option String → List String
  | [], cur =>
    match cur with
    | some t => ["</" ++ t ++ ">"]
    | none => []
  | b :: bs, cur =>
    let btype := b.type
    if btype = "bulleted_list_item" ∨ btype = "numbered_list_item" then
      let tag := if btype = "bulleted_list_item" then "ul" else "ol"
      if cur ≠ some tag then
        (match cur with
          | some t => ["</" ++ t ++ ">"]
          | none => []) ++
          ("<" ++ tag ++ ">") :: render_list_block b :: groupGo gl hl tl bs (some tag)
      else
        render_list_block b :: groupGo gl hl tl bs (some tag)
    else
      (match cur with
        | some t => ["</" ++ t ++ ">"]
        | none => []) ++
        (render_block_html gl hl tl b).1 :: groupGo gl hl tl bs none

/-- The `html_blocks` list a page's top-level block sequence produces. -/
def html_blocks {Lexer : Type} (gl : String → Option Lexer)
    (hl : Lexer → String → String) (tl : Lexer) (blocks : List Block) : List String :=
  groupGo gl hl tl blocks none

/-- The page body `content_html = "\n".join(html_blocks)` (`build.py` line 370). -/
def content_html {Lexer : Type} (gl : String → Option Lexer)
    (hl : Lexer → String → String) (tl : Lexer) (blocks : List Block) : String :=
  pyJoin "\n" (html_blocks gl hl tl blocks)

theorem foldl_append_shift (l : List String) (acc : String) :
    List.foldl (fun r s => r ++ s) acc l = acc ++ List.foldl (fun r s => r ++ s) "" l := by
  induction l generalizing acc with
  | nil => simp [String.append_empty]
  | cons x xs ih =>
    simp only [List.foldl]
    rw [ih (acc ++ x), ih ("" ++ x), String.empty_append, String.append_assoc]

theorem join_cons (x : String) (l : List String) :
    String.join (x :: l) = x ++ String.join l := by
  simp only [String.join, List.foldl]
  rw [foldl_append_shift l ("" ++ x), String.empty_append]

theorem renderListChildren_join (bs : List Block) :
    renderListChildren bs = String.join (bs.map render_list_block) := by
  induction bs with
  | nil => rfl
  | cons b bs ih => rw [renderListChildren, ih, List.map_cons, join_cons]

theorem render_list_block_shape (b : Block) :
    ∃ mid : String, render_list_block b = "<li>" ++ mid ++ "</li>\n" := by
  cases b with
  | mk ty idv hc rt lang ch url ext file cap cells children =>
    by_cases hhc : hc <;> by_cases hch : children.isEmpty
    all_goals
      simp only [render_list_block, hhc, hch, if_true, if_false, Bool.false_eq_true,
        ite_true, ite_false]
    · exact ⟨render_rich_text rt, rfl⟩
    · refine ⟨render_rich_text rt ++ "\n<" ++ (if ty = "bulleted_list_item" then "ul" else "ol")
        ++ ">" ++ renderListChildren children ++ "</"
        ++ (if ty = "bulleted_list_item" then "ul" else "ol") ++ ">", ?_⟩
      simp [String.append_assoc]
    · exact ⟨render_rich_text rt, rfl⟩
    · exact ⟨render_rich_text rt, rfl⟩

theorem ne_four_tags {s : String} (c : Char) (l : List Char)
    (h : s.data = '<' :: c :: l) (hc : c ≠ 'u' ∧ c ≠ 'o' ∧ c ≠ '/') :
    s ≠ "<ul>" ∧ s ≠ "</ul>" ∧ s ≠ "<ol>" ∧ s ≠ "</ol>" := by
  have hul : "<ul>".data = ['<', 'u', 'l', '>'] := by decide
  have hcul : "</ul>".data = ['<', '/', 'u', 'l', '>'] := by decide
  have hol : "<ol>".data = ['<', 'o', 'l', '>'] := by decide
  have hcol : "</ol>".data = ['<', '/', 'o', 'l', '>'] := by decide
  refine ⟨fun he => ?_, fun he => ?_, fun he => ?_, fun he => ?_⟩ <;>
    rw [he] at h
  · rw [hul] at h
    injection h with _ h3; injection h3 with h4 _
    exact hc.1 h4.symm
  · rw [hcul] at h
    injection h with _ h3; injection h3 with h4 _
    exact hc.2.2 h4.symm
  · rw [hol] at h
    injection h with _ h3; injection h3 with h4 _
    exact hc.2.1 h4.symm
  · rw [hcol] at h
    injection h with _ h3; injection h3 with h4 _
    exact hc.2.2 h4.symm

theorem render_list_block_ne_tags (b : Block) :
    render_list_block b ≠ "<ul>" ∧ render_list_block b ≠ "</ul>" ∧
    render_list_block b ≠ "<ol>" ∧ render_list_block b ≠ "</ol>" := by
  obtain ⟨mid, hm⟩ := render_list_block_shape b
  rw [hm]
  exact ne_four_tags _ _ rfl (by decide)

set_option maxHeartbeats 1000000 in
theorem render_block_html_ne_tags {L : Type} (gl : String → Option L)
    (hl : L → String → String) (tl : L) (b : Block) :
    (render_block_html gl hl tl b).1 ≠ "<ul>" ∧ (render_block_html gl hl tl b).1 ≠ "</ul>" ∧
    (render_block_html gl hl tl b).1 ≠ "<ol>" ∧ (render_block_html gl hl tl b).1 ≠ "</ol>" := by
  obtain ⟨mid, hm⟩ := render_list_block_shape b
  simp only [render_block_html]
  by_cases h1 : b.type = "paragraph"
  · rw [if_pos h1]; exact ne_four_tags _ _ rfl (by decide)
  rw [if_neg h1]
  by_cases h2 : strStarts b.type "heading_" = true
  · rw [if_pos h2]; exact ne_four_tags _ _ rfl (by decide)
  rw [if_neg h2]
  by_cases h3 : b.type = "quote"
  · rw [if_pos h3]; exact ne_four_tags _ _ rfl (by decide)
  rw [if_neg h3]
  by_cases h4 : b.type = "code"
  · rw [if_pos h4]; exact ne_four_tags _ _ rfl (by decide)
  rw [if_neg h4]
  by_cases h5 : b.type = "bulleted_list_item" ∨ b.type = "numbered_list_item"
  · rw [if_pos h5]
    rw [show (render_list_block b, ([] : List String)).1 = render_list_block b from rfl, hm]
    exact ne_four_tags _ _ rfl (by decide)
  rw [if_neg h5]
  by_cases h6 : b.type = "to_do"
  · rw [if_pos h6]; exact ne_four_tags _ _ rfl (by decide)
  rw [if_neg h6]
  by_cases h7 : b.type = "table"
  · rw [if_pos h7]; exact ne_four_tags _ _ rfl (by decide)
  rw [if_neg h7]
  by_cases h8 : b.type = "embed"
  · rw [if_pos h8]; exact ne_four_tags _ _ rfl (by decide)
  rw [if_neg h8]
  by_cases h9 : b.type = "video"
  · rw [if_pos h9]
    by_cases hv : (strContains (convert_embed_url (resolveMediaUrl b.external_url b.file_url))
        "youtube.com" || strContains (convert_embed_url (resolveMediaUrl b.external_url
        b.file_url)) "nicovideo.jp") = true
    · rw [if_pos hv]; exact ne_four_tags _ _ rfl (by decide)
    · rw [if_neg hv]; exact ne_four_tags _ _ rfl (by decide)
  rw [if_neg h9]
  by_cases h10 : b.type = "divider"
  · rw [if_pos h10]; exact ne_four_tags _ _ rfl (by decide)
  rw [if_neg h10]
  by_cases h11 : b.type = "image"
  · rw [if_pos h11]; exact ne_four_tags _ _ rfl (by decide)
  rw [if_neg h11]
  exact ne_four_tags _ _ rfl (by decide)

/-- Well-nestedness checker for the `html_blocks` segment list: scans the
segments tracking the open list tag; an open tag segment is legal only when no
list is open, a close tag segment only when exactly that list is open, and at
the end no list may remain open. -/
def checkSegs : Option String → List String → Bool
  | none, [] => true
  | some _, [] => false
  | st, s :: rest =>
    if s = "<ul>" then decide (st = none) && checkSegs (some "ul") rest
    else if s = "<ol>" then decide (st = none) && checkSegs (some "ol") rest
    else if s = "</ul>" then decide (st = some "ul") && checkSegs none rest
    else if s = "</ol>" then decide (st = some "ol") && checkSegs none rest
    else checkSegs st rest

theorem checkSegs_open (tag : String) (htag : tag = "ul" ∨ tag = "ol")
    (rest : List String) :
    checkSegs none (("<" ++ tag ++ ">") :: rest) = checkSegs (some tag) rest := by
  rcases htag with rfl | rfl <;> simp [checkSegs]

theorem checkSegs_close (tag : String) (htag : tag = "ul" ∨ tag = "ol")
    (rest : List String) :
    checkSegs (some tag) (("</" ++ tag ++ ">") :: rest) = checkSegs none rest := by
  rcases htag with rfl | rfl <;> simp [checkSegs]

theorem checkSegs_skip (st : Option String) (s : String)
    (hs : s ≠ "<ul>" ∧ s ≠ "</ul>" ∧ s ≠ "<ol>" ∧ s ≠ "</ol>") (rest : List String) :
    checkSegs st (s :: rest) = checkSegs st rest := by
  simp [checkSegs, hs.1, hs.2.1, hs.2.2.1, hs.2.2.2]

theorem groupGo_check {L : Type} (gl : String → Option L) (hl : L → String → String)
    (tl : L) (bs : List Block) : ∀ cur : Option String,
    cur = none ∨ cur = some "ul" ∨ cur = some "ol" →
    checkSegs cur (groupGo gl hl tl bs cur) = true := by
  induction bs with
  | nil =>
    intro cur hcur
    rcases hcur with rfl | rfl | rfl <;> simp [groupGo, checkSegs]
  | cons b bs ih =>
    intro cur hcur
    by_cases hb : b.type = "bulleted_list_item" ∨ b.type = "numbered_list_item"
    · obtain ⟨n1, n2, n3, n4⟩ := render_list_block_ne_tags b
      rcases hb with hbt | hbt
      · rcases hcur with rfl | rfl | rfl <;>
        · simp [groupGo, checkSegs, hbt, n1, n2, n3, n4]
          exact ih _ (Or.inr (Or.inl rfl))
      · rcases hcur with rfl | rfl | rfl <;>
        · simp [groupGo, checkSegs, hbt, n1, n2, n3, n4]
          exact ih _ (Or.inr (Or.inr rfl))
    · obtain ⟨m1, m2, m3, m4⟩ := render_block_html_ne_tags gl hl tl b
      rcases hcur with rfl | rfl | rfl <;>
      · simp [groupGo, checkSegs, hb, m1, m2, m3, m4]
        exact ih _ (Or.inl rfl)

/-- A plain unannotated span, for concrete examples. -/
def plainSpan (s : String) : RichTextSpan :=
  ⟨s, false, false, false, false, false, none⟩

/-- A childless block carrying only a type and one plain span. -/
def simpleBlock (ty txt : String) : Block :=
  .mk ty "b1" false [plainSpan txt] "" false "" none none [] [] []

/-- A bulleted parent whose fetched children are a numbered item and a
paragraph. -/
def nestedExample : Block :=
  .mk "bulleted_list_item" "p1" true [plainSpan "parent"] "" false "" none none [] []
    [simpleBlock "numbered_list_item" "kid", simpleBlock "paragraph" "note"]

/-- C2: the sibling-sequence grouper produces segment lists in which list
wrappers are perfectly balanced — an open tag only when no list is open, a
close tag only for the currently open list, and nothing left open at the
end — and the sequence [bulleted, bulleted, numbered, paragraph, bulleted]
yields one `<ul>` around the first two items, one `<ol>` around the third,
one `<p>`, and one final `<ul>` around the last. -/
theorem c2_list_regrouping :
    (∀ (L : Type) (gl : String → Option L) (hl : L → String → String) (tl : L)
      (bs : List Block), checkSegs none (html_blocks gl hl tl bs) = true) ∧
    html_blocks (fun _ => (none : Option Unit)) (fun _ s => s) ()
      [simpleBlock "bulleted_list_item" "a", simpleBlock "bulleted_list_item" "b",
       simpleBlock "numbered_list_item" "c", simpleBlock "paragraph" "p",
       simpleBlock "bulleted_list_item" "d"] =
      ["<ul>", "<li>a</li>\n", "<li>b</li>\n", "</ul>", "<ol>", "<li>c</li>\n", "</ol>",
       "<p>p</p>", "<ul>", "<li>d</li>\n", "</ul>"] := by
  refine ⟨fun L gl hl tl bs => groupGo_check gl hl tl bs none (Or.inl rfl), ?_⟩
  decide

/-- C5: for a block whose kind matches none of the handled types, the
renderer totally (it is a Lean function) returns the generic `<div>` wrapping
the composed rich text — `<div></div>` when the block carries none — and
emits a diagnostic. -/
theorem c5_unknown_kind_fallback {L : Type} (gl : String → Option L)
    (hl : L → String → String) (tl : L) (b : Block)
    (hp : b.type ≠ "paragraph") (hh : strStarts b.type "heading_" = false)
    (hq : b.type ≠ "quote") (hc : b.type ≠ "code")
    (hbl : b.type ≠ "bulleted_list_item") (hnl : b.type ≠ "numbered_list_item")
    (ht : b.type ≠ "to_do") (hta : b.type ≠ "table") (he : b.type ≠ "embed")
    (hv : b.type ≠ "video") (hd : b.type ≠ "divider") (hi : b.type ≠ "image") :
    (render_block_html gl hl tl b).1 = "<div>" ++ render_rich_text b.rich_text ++ "</div>" ∧
    (b.rich_text = [] → (render_block_html gl hl tl b).1 = "<div></div>") ∧
    (render_block_html gl hl tl b).2 ≠ [] := by
  have hmain : render_block_html gl hl tl b =
      ("<div>" ++ render_rich_text b.rich_text ++ "</div>",
        ["⚠️ 未対応のブロックタイプ: " ++ b.type]) := by
    simp only [render_block_html]
    rw [if_neg hp, if_neg (by simp [hh]), if_neg hq, if_neg hc,
      if_neg (not_or.mpr ⟨hbl, hnl⟩), if_neg ht, if_neg hta, if_neg he, if_neg hv,
      if_neg hd, if_neg hi]
  refine ⟨by rw [hmain], fun hrt => ?_, by rw [hmain]; simp⟩
  rw [hmain, hrt]
  rfl

/-- Witness for C5 at the unknown kind `"unsupported_future_type"`. -/
theorem c5_unknown_kind_fallback_witness :
    (render_block_html (fun _ => (none : Option Unit)) (fun _ s => s) ()
        (simpleBlock "unsupported_future_type" "x")).1 =
      "<div>" ++ render_rich_text (simpleBlock "unsupported_future_type" "x").rich_text ++
        "</div>" ∧
    ((simpleBlock "unsupported_future_type" "x").rich_text = [] →
      (render_block_html (fun _ => (none : Option Unit)) (fun _ s => s) ()
        (simpleBlock "unsupported_future_type" "x")).1 = "<div></div>") ∧
    (render_block_html (fun _ => (none : Option Unit)) (fun _ s => s) ()
      (simpleBlock "unsupported_future_type" "x")).2 ≠ [] :=
  c5_unknown_kind_fallback _ _ _ _ (by decide) (by decide) (by decide) (by decide)
    (by decide) (by decide) (by decide) (by decide) (by decide) (by decide) (by decide)
    (by decide)

/-- C10: a list-item block with `has_children` and a non-empty fetched child
list nests all children inside one list whose tag comes from the parent's own
kind, rendering every child through `render_list_block` as an `<li>`
regardless of the child's kind; with `has_children` false or no children, no
nested list is emitted.  The concrete conjunct shows a numbered item and a
paragraph both nested inside a bulleted parent's `<ul>`. -/
theorem c10_nested_list_rendering (b : Block)
    (hk : b.type = "bulleted_list_item" ∨ b.type = "numbered_list_item") :
    (b.has_children = true → b.children ≠ [] →
      render_list_block b =
        "<li>" ++ render_rich_text b.rich_text ++ "\n<" ++
          (if b.type = "bulleted_list_item" then "ul" else "ol") ++ ">" ++
          String.join (b.children.map render_list_block) ++ "</" ++
          (if b.type = "bulleted_list_item" then "ul" else "ol") ++ ">" ++ "</li>\n") ∧
    (b.has_children = false →
      render_list_block b = "<li>" ++ render_rich_text b.rich_text ++ "</li>\n") ∧
    (b.children = [] →
      render_list_block b = "<li>" ++ render_rich_text b.rich_text ++ "</li>\n") ∧
    (∀ c : Block, ∃ mid : String, render_list_block c = "<li>" ++ mid ++ "</li>\n") ∧
    render_list_block nestedExample =
      "<li>parent\n<ul><li>kid</li>\n<li>note</li>\n</ul></li>\n" := by
  cases b with
  | mk ty idv hc rt lang ch url ext file cap cells children =>
    refine ⟨fun hhc hch => ?_, fun hhc => ?_, fun hch => ?_,
      render_list_block_shape, by decide⟩
    · subst hhc
      simp only [Block.type, Block.rich_text, Block.children] at hch ⊢
      cases children with
      | nil => exact absurd rfl hch
      | cons c cs =>
        rw [← renderListChildren_join]
        rfl
    · subst hhc
      rfl
    · simp only [Block.children] at hch
      subst hch
      cases hc <;> rfl

/-- Witness for C10 at the concrete nested example. -/
theorem c10_nested_list_rendering_witness :
    render_list_block nestedExample =
      "<li>" ++ render_rich_text nestedExample.rich_text ++ "\n<" ++
        (if nestedExample.type = "bulleted_list_item" then "ul" else "ol") ++ ">" ++
        String.join (nestedExample.children.map render_list_block) ++ "</" ++
        (if nestedExample.type = "bulleted_list_item" then "ul" else "ol") ++ ">" ++
        "</li>\n" :=
  (c10_nested_list_rendering nestedExample (Or.inl rfl)).1 rfl (List.cons_ne_nil _ _)

/-- The lexer `render_block_html` resolves for a trimmed, lowered language
tag: `get_lexer_by_name` when the tag is non-empty and recognized, the
plain-text `TextLexer` otherwise. -/
def codeLexer {L : Type} (gl : String → Option L) (tl : L) (lang : String) : L :=
  if lang ≠ "" then
    match gl lang with
    | some lx => lx
    | none => tl
  else tl

/-- The diagnostics the lexer resolution emits: a fallback notice exactly when
a non-empty language tag is unrecognized. -/
def codeDiag {L : Type} (gl : String → Option L) (lang : String) : List String :=
  if lang ≠ "" then
    match gl lang with
    | some _ => []
    | none => ["⚠️ 未対応の言語 " ++ lang ++ " → fallback to TextLexer"]
  else []

theorem render_block_html_code_eq {L : Type} (gl : String → Option L)
    (hl : L → String → String) (tl : L) (b : Block) (hb : b.type = "code") :
    render_block_html gl hl tl b =
      ("<div class=\"code-block\"><pre>" ++
          hl (codeLexer gl tl (pyLower (pyStrip b.language)))
            (String.join (b.rich_text.map fun t => t.plain_text)) ++ "</pre></div>",
        ("💡 コードブロック言語: " ++ pyLower (pyStrip b.language)) ::
          codeDiag gl (pyLower (pyStrip b.language))) := by
  simp only [render_block_html]
  rw [hb]
  rw [if_neg (by decide), if_neg (by decide), if_neg (by decide), if_pos rfl]
  simp only [codeLexer, codeDiag]
  by_cases hlang : pyLower (pyStrip b.language) ≠ ""
  · rw [if_pos hlang, if_pos hlang, if_pos hlang]
    cases hgl : gl (pyLower (pyStrip b.language)) <;> rfl
  · rw [if_neg hlang, if_neg hlang, if_neg hlang]

/-- A concrete code block whose language tag needs trimming and lowering. -/
def codeBlockExample : Block :=
  .mk "code" "c1" false [plainSpan "x = 1"] " Python " false "" none none [] [] []

/-- C6: a code block's language tag is matched after trimming and lowering;
a missing or unrecognized language falls back to the plain-text lexer instead
of failing; the highlighter input is the concatenation of the raw `plain_text`
fields; and the output is the fixed `<div class="code-block"><pre>` container. -/
theorem c6_code_language_fallback {L : Type} (gl : String → Option L)
    (hl : L → String → String) (tl : L) :
    (∀ b : Block, b.type = "code" →
      (render_block_html gl hl tl b).1 =
        "<div class=\"code-block\"><pre>" ++
          hl (codeLexer gl tl (pyLower (pyStrip b.language)))
            (String.join (b.rich_text.map fun t => t.plain_text)) ++ "</pre></div>") ∧
    (∀ b1 b2 : Block, b1.type = "code" → b2.type = "code" →
      pyLower (pyStrip b1.language) = pyLower (pyStrip b2.language) →
      b1.rich_text = b2.rich_text →
      (render_block_html gl hl tl b1).1 = (render_block_html gl hl tl b2).1) ∧
    (∀ lang : String, gl lang = none → codeLexer gl tl lang = tl) ∧
    codeLexer gl tl "" = tl := by
  refine ⟨fun b hb => ?_, fun b1 b2 hb1 hb2 hlang hrt => ?_, fun lang hgl => ?_, ?_⟩
  · rw [render_block_html_code_eq gl hl tl b hb]
  · rw [render_block_html_code_eq gl hl tl b1 hb1,
      render_block_html_code_eq gl hl tl b2 hb2, hlang, hrt]
  · simp [codeLexer, hgl]
  · simp [codeLexer]

/-- Witness for C6 at a concrete code block with untrimmed language. -/
theorem c6_code_language_fallback_witness :
    (render_block_html (fun _ => (none : Option Unit)) (fun _ s => s) ()
        codeBlockExample).1 =
      "<div class=\"code-block\"><pre>" ++
        (fun _ s => s) ()
          (String.join (codeBlockExample.rich_text.map fun t => t.plain_text)) ++
        "</pre></div>" := by
  have h := (c6_code_language_fallback (fun _ => (none : Option Unit))
    (fun _ s => s) ()).1 codeBlockExample rfl
  exact h

theorem render_block_html_table_eq {L : Type} (gl : String → Option L)
    (hl : L → String → String) (tl : L) (b : Block) (hb : b.type = "table") :
    render_block_html gl hl tl b =
      ("<table>" ++
        String.join (b.children.map fun row =>
          "<tr>" ++ String.join (row.cells.map renderTableCell) ++ "</tr>") ++
        "</table>", []) := by
  simp only [render_block_html]
  rw [hb]
  rw [if_neg (by decide), if_neg (by decide), if_neg (by decide), if_neg (by decide),
    if_neg (by decide), if_neg (by decide), if_pos rfl]

/-- A one-row table whose cells exercise the corner, header and data cases. -/
def tableExample : Block :=
  .mk "table" "t1" true [] "" false "" none none [] []
    [.mk "table_row" "r1" false [] "" false "" none none []
      [[plainSpan "corner::X"], [plainSpan "th::H"], [plainSpan "D"]] []]

set_option maxRecDepth 8000 in
/-- C7: each table cell's header-versus-data intent is decided by a
content-prefix sentinel on the cell's composed, stripped text — `corner::`
yields a header cell with the diagonal-divider graphic and the content after
the sentinel, `th::` yields a `<th>` with the text after the sentinel, and
anything else a `<td>` with the composed text — and the rows are assembled
into one `<table>`. -/
theorem c7_table_cell_sentinels {L : Type} (gl : String → Option L)
    (hl : L → String → String) (tl : L) (b : Block) (hb : b.type = "table") :
    ((render_block_html gl hl tl b).1 =
      "<table>" ++
        String.join (b.children.map fun row =>
          "<tr>" ++ String.join (row.cells.map renderTableCell) ++ "</tr>") ++
        "</table>") ∧
    (∀ cell : List RichTextSpan,
      (strStarts (pyStrip (render_rich_text cell)) "corner::" = true →
        renderTableCell cell =
          cornerCellPre ++ splitOnceTail (pyStrip (render_rich_text cell)) "::" ++
            cornerCellPost) ∧
      (strStarts (pyStrip (render_rich_text cell)) "corner::" = false →
        strStarts (pyStrip (render_rich_text cell)) "th::" = true →
        renderTableCell cell =
          "<th>" ++ (pyStrip (render_rich_text cell)).drop 4 ++ "</th>") ∧
      (strStarts (pyStrip (render_rich_text cell)) "corner::" = false →
        strStarts (pyStrip (render_rich_text cell)) "th::" = false →
        renderTableCell cell = "<td>" ++ pyStrip (render_rich_text cell) ++ "</td>")) ∧
    renderTableCell [plainSpan "corner::X"] = cornerCellPre ++ "X" ++ cornerCellPost ∧
    renderTableCell [plainSpan "th::H"] = "<th>H</th>" ∧
    renderTableCell [plainSpan "D"] = "<td>D</td>" := by
  refine ⟨by rw [render_block_html_table_eq gl hl tl b hb], fun cell => ?_,
    by decide, by decide, by decide⟩
  refine ⟨fun hcorner => ?_, fun hcorner hth => ?_, fun hcorner hth => ?_⟩
  · simp only [renderTableCell]
    rw [if_pos hcorner]
  · simp only [renderTableCell]
    rw [if_neg (by simp [hcorner]), if_pos hth]
  · simp only [renderTableCell]
    rw [if_neg (by simp [hcorner]), if_neg (by simp [hth])]

/-- Witness for C7 at the concrete one-row table. -/
theorem c7_table_cell_sentinels_witness :
    (render_block_html (fun _ => (none : Option Unit)) (fun _ s => s) () tableExample).1 =
      "<table>" ++
        String.join (tableExample.children.map fun row =>
          "<tr>" ++ String.join (row.cells.map renderTableCell) ++ "</tr>") ++
        "</table>" :=
  (c7_table_cell_sentinels (fun _ => (none : Option Unit)) (fun _ s => s) ()
    tableExample rfl).1

theorem render_block_html_video_eq {L : Type} (gl : String → Option L)
    (hl : L → String → String) (tl : L) (b : Block) (hb : b.type = "video") :
    render_block_html gl hl tl b =
      (if (strContains (convert_embed_url (resolveMediaUrl b.external_url b.file_url))
            "youtube.com" ||
          strContains (convert_embed_url (resolveMediaUrl b.external_url b.file_url))
            "nicovideo.jp") = true then
        ("<iframe src=\"" ++
          convert_embed_url (resolveMediaUrl b.external_url b.file_url) ++
          "\" title=\"動画\" frameborder=\"0\" allowfullscreen loading=\"lazy\" style=\"width:100%;height:400px;\"></iframe>", [])
      else
        ("<video src=\"" ++ resolveMediaUrl b.external_url b.file_url ++
          "\" controls style=\"max-width: 100%; height: auto;\"></video>", [])) := by
  simp only [render_block_html]
  rw [hb]
  rw [if_neg (by decide), if_neg (by decide), if_neg (by decide), if_neg (by decide),
    if_neg (by decide), if_neg (by decide), if_neg (by decide), if_neg (by decide),
    if_pos rfl]

/-- A video block with an external YouTube short link. -/
def videoExample : Block :=
  .mk "video" "v1" false [] "" false "" (some "https://youtu.be/abc") none [] [] []

/-- An embed block with the same YouTube short link. -/
def embedExample : Block :=
  .mk "embed" "e1" false [] "" false "https://youtu.be/abc" none none [] [] []

/-- Counterexample to C8: for the same platform URL the video block's iframe
is not byte-identical to the embed block's iframe — the `title` attribute and
the order of `loading`/`allowfullscreen` differ. -/
theorem c8_video_embed_iframes_differ :
    (render_block_html (fun _ => (none : Option Unit)) (fun _ s => s) () videoExample).1 ≠
      (render_block_html (fun _ => (none : Option Unit)) (fun _ s => s) () embedExample).1 := by
  decide

/-- C8 (amended): a video block resolves its URL preferring the external link
over the attached-file link; when the normalized URL belongs to a known video
platform it renders an `<iframe>` with that URL as source — the same src and
sizing as the embed iframe, though with a different `title` and attribute
order — and otherwise a native `<video>` element with controls. -/
theorem c8_video_rendering_amended {L : Type} (gl : String → Option L)
    (hl : L → String → String) (tl : L) (b : Block) (hb : b.type = "video") :
    ((strContains (convert_embed_url (resolveMediaUrl b.external_url b.file_url))
        "youtube.com" ||
      strContains (convert_embed_url (resolveMediaUrl b.external_url b.file_url))
        "nicovideo.jp") = true →
      (render_block_html gl hl tl b).1 =
        "<iframe src=\"" ++
          convert_embed_url (resolveMediaUrl b.external_url b.file_url) ++
          "\" title=\"動画\" frameborder=\"0\" allowfullscreen loading=\"lazy\" style=\"width:100%;height:400px;\"></iframe>") ∧
    ((strContains (convert_embed_url (resolveMediaUrl b.external_url b.file_url))
        "youtube.com" ||
      strContains (convert_embed_url (resolveMediaUrl b.external_url b.file_url))
        "nicovideo.jp") = false →
      (render_block_html gl hl tl b).1 =
        "<video src=\"" ++ resolveMediaUrl b.external_url b.file_url ++
          "\" controls style=\"max-width: 100%; height: auto;\"></video>") ∧
    (∀ u : String, b.external_url = some u → u ≠ "" →
      resolveMediaUrl b.external_url b.file_url = u) ∧
    (b.external_url = none →
      resolveMediaUrl b.external_url b.file_url = b.file_url.getD "") := by
  refine ⟨fun hplat => ?_, fun hplat => ?_, fun u hu hne => ?_, fun hext => ?_⟩
  · rw [render_block_html_video_eq gl hl tl b hb, if_pos hplat]
  · rw [render_block_html_video_eq gl hl tl b hb, if_neg (by simp [hplat])]
  · simp [resolveMediaUrl, hu, hne]
  · simp [resolveMediaUrl, hext]

/-- Witness for C8 (amended) at the concrete video block. -/
theorem c8_video_rendering_amended_witness :
    (render_block_html (fun _ => (none : Option Unit)) (fun _ s => s) () videoExample).1 =
      "<iframe src=\"" ++
        convert_embed_url (resolveMediaUrl videoExample.external_url videoExample.file_url) ++
        "\" title=\"動画\" frameborder=\"0\" allowfullscreen loading=\"lazy\" style=\"width:100%;height:400px;\"></iframe>" :=
  (c8_video_rendering_amended (fun _ => (none : Option Unit)) (fun _ s => s) ()
    videoExample rfl).1 (by decide)

/-- C9: rendering is deterministic and depends on the highlighter
collaborators only through their input-output behavior: page rendering over
extensionally equal highlighter environments is byte-identical, and rendering
the same tree twice yields equal strings.  The embedding is pure by
construction, mirroring that the source never writes to its input blocks. -/
theorem c9_rendering_deterministic :
    (∀ (L : Type) (gl1 gl2 : String → Option L) (hl1 hl2 : L → String → String)
      (tl : L) (bs : List Block),
      (∀ s, gl1 s = gl2 s) → (∀ lx s, hl1 lx s = hl2 lx s) →
      content_html gl1 hl1 tl bs = content_html gl2 hl2 tl bs) ∧
    (∀ (L : Type) (gl : String → Option L) (hl : L → String → String) (tl : L)
      (b : Block), render_block_html gl hl tl b = render_block_html gl hl tl b) ∧
    (∀ b : Block, render_list_block b = render_list_block b) := by
  refine ⟨fun L gl1 gl2 hl1 hl2 tl bs hgl hhl => ?_, fun _ _ _ _ _ => rfl, fun _ => rfl⟩
  rw [funext hgl, funext fun lx => funext (hhl lx)]

/-- Witness for C9 at a concrete page. -/
theorem c9_rendering_deterministic_witness :
    content_html (fun _ => (none : Option Unit)) (fun _ s => s) ()
        [simpleBlock "paragraph" "p"] =
      content_html (fun _ => (none : Option Unit)) (fun _ s => s) ()
        [simpleBlock "paragraph" "p"] :=
  c9_rendering_deterministic.1 Unit _ _ _ _ () [simpleBlock "paragraph" "p"]
    (fun _ => rfl) (fun _ _ => rfl)

/-- The tag stripper `re.sub(r"<.*?>", "", html)` used by `notion_pull`
(`build.py` line 381), as a one-pass scanner over the characters: from each
`<` the shortest run up to the next `>` is deleted, provided no newline
intervenes (`.` does not match a newline); an unmatched `<` is emitted
together with its buffered characters. -/
def stripGo : Option (List Char) → List Char → List Char
  | none, [] => []
  | some buf, [] => buf.reverse
  | none, c :: rest => if c = '<' then stripGo (some [c]) rest else c :: stripGo none rest
  | some buf, c :: rest =>
    if c = '>' then stripGo none rest
    else if c = '\n' then buf.reverse ++ '\n' :: stripGo none rest
    else stripGo (some (c :: buf)) rest

/-- Strip all HTML tags from a string, per the regex above. -/
def stripTags (s : String) : String :=
  String.mk (stripGo none s.data)

/-- A span is clean when its plain text cannot open a tag and its href (if
any) cannot close or break the generated `<a>` tag. -/
def hrefData (t : RichTextSpan) : List Char :=
  match t.href with
  | some h => h.data
  | none => []

/-- Cleanliness of a span for tag stripping. -/
def cleanSpan (t : RichTextSpan) : Prop :=
  (∀ c ∈ t.plain_text.data, c ≠ '<') ∧ (∀ c ∈ hrefData t, c ≠ '>' ∧ c ≠ '\n')

theorem stripGo_clean (l : List Char) (hl2 : ∀ c ∈ l, c ≠ '<') (rest : List Char) :
    stripGo none (l ++ rest) = l ++ stripGo none rest := by
  induction l with
  | nil => rfl
  | cons c cs ih =>
    have hc : c ≠ '<' := hl2 c (List.mem_cons_self c cs)
    simp only [List.cons_append, stripGo, if_neg hc, List.append_eq]
    rw [ih (fun d hd => hl2 d (List.mem_cons_of_mem c hd))]

theorem stripGo_tag_body (body : List Char) (hb : ∀ c ∈ body, c ≠ '>' ∧ c ≠ '\n') :
    ∀ (buf rest : List Char), stripGo (some buf) (body ++ '>' :: rest) = stripGo none rest := by
  induction body with
  | nil =>
    intro buf rest
    simp [stripGo]
  | cons c cs ih =>
    intro buf rest
    have hc := hb c (List.mem_cons_self c cs)
    simp only [List.cons_append, stripGo, if_neg hc.1, if_neg hc.2]
    exact ih (fun d hd => hb d (List.mem_cons_of_mem c hd)) (c :: buf) rest

theorem stripGo_tag (body : List Char) (hb : ∀ c ∈ body, c ≠ '>' ∧ c ≠ '\n')
    (rest : List Char) :
    stripGo none ('<' :: (body ++ '>' :: rest)) = stripGo none rest := by
  simp only [stripGo, if_pos rfl]
  exact stripGo_tag_body body hb ['<'] rest

/-- String `s` strips to `p` in any right context: the key compositional invariant
for reasoning about `stripTags` on concatenations. -/
def Strips (s p : String) : Prop :=
  ∀ rest : List Char, stripGo none (s.data ++ rest) = p.data ++ stripGo none rest

theorem strips_append {s1 s2 p1 p2 : String} (h1 : Strips s1 p1) (h2 : Strips s2 p2) :
    Strips (s1 ++ s2) (p1 ++ p2) := by
  intro rest
  rw [String.data_append, String.data_append, List.append_assoc, List.append_assoc]
  rw [h1 (s2.data ++ rest), h2 rest]

theorem strips_clean (s : String) (hs : ∀ c ∈ s.data, c ≠ '<') : Strips s s :=
  fun rest => stripGo_clean s.data hs rest

theorem strips_of_tag (t : String) (body : List Char)
    (ht : t.data = '<' :: (body ++ ['>'])) (hb : ∀ c ∈ body, c ≠ '>' ∧ c ≠ '\n') :
    Strips t "" := by
  intro rest
  have hed : ("" : String).data = [] := by decide
  rw [ht, hed]
  have hshape : ('<' :: (body ++ ['>'])) ++ rest = '<' :: (body ++ '>' :: rest) := by simp
  rw [hshape, stripGo_tag body hb rest]
  rfl

theorem strips_wrap {A B s p : String} (ha : Strips A "") (hs : Strips s p)
    (hb2 : Strips B "") : Strips (A ++ s ++ B) p := by
  have h4 := strips_append (strips_append ha hs) hb2
  rw [String.empty_append, String.append_empty] at h4
  exact h4

theorem strips_step (cond : Prop) [Decidable cond] (A B X p : String)
    (ha : Strips A "") (hb2 : Strips B "") (hx : Strips X p) :
    Strips (if cond then A ++ X ++ B else X) p := by
  by_cases hc : cond
  · rw [if_pos hc]; exact strips_wrap ha hx hb2
  · rw [if_neg hc]; exact hx

theorem strips_href_open (h : String) (hh : ∀ c ∈ h.data, c ≠ '>' ∧ c ≠ '\n') :
    Strips ("<a href=\"" ++ h ++ "\">") "" := by
  refine strips_of_tag _ (['a', ' ', 'h', 'r', 'e', 'f', '=', '"'] ++ h.data ++ ['"']) ?_ ?_
  · have h1 : "<a href=\"".data = ['<', 'a', ' ', 'h', 'r', 'e', 'f', '=', '"'] := by decide
    have h2 : "\">".data = ['"', '>'] := by decide
    rw [String.data_append, String.data_append, h1, h2]
    simp
  · intro c hc
    rcases List.mem_append.mp hc with hc1 | hc2
    · rcases List.mem_append.mp hc1 with hc3 | hc4
      · simp only [List.mem_cons, List.not_mem_nil, or_false] at hc3
        rcases hc3 with rfl | rfl | rfl | rfl | rfl | rfl | rfl | rfl <;> decide
      · exact hh c hc4
    · simp only [List.mem_singleton] at hc2
      subst hc2
      decide

theorem strips_renderSpan (t : RichTextSpan) (hc : cleanSpan t) :
    Strips (renderSpan t) t.plain_text := by
  have tCode : Strips "<code>" "" :=
    strips_of_tag _ ['c', 'o', 'd', 'e'] (by decide) (by decide)
  have tCodeC : Strips "</code>" "" :=
    strips_of_tag _ ['/', 'c', 'o', 'd', 'e'] (by decide) (by decide)
  have tStrong : Strips "<strong>" "" :=
    strips_of_tag _ ['s', 't', 'r', 'o', 'n', 'g'] (by decide) (by decide)
  have tStrongC : Strips "</strong>" "" :=
    strips_of_tag _ ['/', 's', 't', 'r', 'o', 'n', 'g'] (by decide) (by decide)
  have tEm : Strips "<em>" "" := strips_of_tag _ ['e', 'm'] (by decide) (by decide)
  have tEmC : Strips "</em>" "" := strips_of_tag _ ['/', 'e', 'm'] (by decide) (by decide)
  have tDel : Strips "<del>" "" := strips_of_tag _ ['d', 'e', 'l'] (by decide) (by decide)
  have tDelC : Strips "</del>" "" :=
    strips_of_tag _ ['/', 'd', 'e', 'l'] (by decide) (by decide)
  have tU : Strips "<u>" "" := strips_of_tag _ ['u'] (by decide) (by decide)
  have tUC : Strips "</u>" "" := strips_of_tag _ ['/', 'u'] (by decide) (by decide)
  have tAC : Strips "</a>" "" := strips_of_tag _ ['/', 'a'] (by decide) (by decide)
  have base : Strips t.plain_text t.plain_text := strips_clean _ hc.1
  have chain : Strips
      (if t.underline = true then
        "<u>" ++
          (if t.strikethrough = true then
            "<del>" ++
              (if t.italic = true then
                "<em>" ++
                  (if t.bold = true then
                    "<strong>" ++
                      (if t.code = true then "<code>" ++ t.plain_text ++ "</code>"
                        else t.plain_text) ++ "</strong>"
                    else if t.code = true then "<code>" ++ t.plain_text ++ "</code>"
                      else t.plain_text) ++ "</em>"
                else if t.bold = true then
                  "<strong>" ++
                    (if t.code = true then "<code>" ++ t.plain_text ++ "</code>"
                      else t.plain_text) ++ "</strong>"
                  else if t.code = true then "<code>" ++ t.plain_text ++ "</code>"
                    else t.plain_text) ++ "</del>"
            else if t.italic = true then
              "<em>" ++
                (if t.bold = true then
                  "<strong>" ++
                    (if t.code = true then "<code>" ++ t.plain_text ++ "</code>"
                      else t.plain_text) ++ "</strong>"
                  else if t.code = true then "<code>" ++ t.plain_text ++ "</code>"
                    else t.plain_text) ++ "</em>"
              else if t.bold = true then
                "<strong>" ++
                  (if t.code = true then "<code>" ++ t.plain_text ++ "</code>"
                    else t.plain_text) ++ "</strong>"
                else if t.code = true then "<code>" ++ t.plain_text ++ "</code>"
                  else t.plain_text) ++ "</u>"
        else if t.strikethrough = true then
          "<del>" ++
            (if t.italic = true then
              "<em>" ++
                (if t.bold = true then
                  "<strong>" ++
                    (if t.code = true then "<code>" ++ t.plain_text ++ "</code>"
                      else t.plain_text) ++ "</strong>"
                  else if t.code = true then "<code>" ++ t.plain_text ++ "</code>"
                    else t.plain_text) ++ "</em>"
              else if t.bold = true then
                "<strong>" ++
                  (if t.code = true then "<code>" ++ t.plain_text ++ "</code>"
                    else t.plain_text) ++ "</strong>"
                else if t.code = true then "<code>" ++ t.plain_text ++ "</code>"
                  else t.plain_text) ++ "</del>"
          else if t.italic = true then
            "<em>" ++
              (if t.bold = true then
                "<strong>" ++
                  (if t.code = true then "<code>" ++ t.plain_text ++ "</code>"
                    else t.plain_text) ++ "</strong>"
                else if t.code = true then "<code>" ++ t.plain_text ++ "</code>"
                  else t.plain_text) ++ "</em>"
            else if t.bold = true then
              "<strong>" ++
                (if t.code = true then "<code>" ++ t.plain_text ++ "</code>"
                  else t.plain_text) ++ "</strong>"
              else if t.code = true then "<code>" ++ t.plain_text ++ "</code>"
                else t.plain_text)
      t.plain_text :=
    strips_step _ _ _ _ _ tU tUC
      (strips_step _ _ _ _ _ tDel tDelC
        (strips_step _ _ _ _ _ tEm tEmC
          (strips_step _ _ _ _ _ tStrong tStrongC
            (strips_step _ _ _ _ _ tCode tCodeC base))))
  simp only [renderSpan]
  cases hhref : t.href with
  | none => exact chain
  | some h =>
    have hhdata : ∀ c ∈ h.data, c ≠ '>' ∧ c ≠ '\n' := by
      intro c hcm
      apply hc.2
      have : hrefData t = h.data := by simp [hrefData, hhref]
      rw [this]
      exact hcm
    exact strips_wrap (strips_href_open h hhdata) chain tAC

theorem strips_render_rich_text (ts : List RichTextSpan) (hts : ∀ t ∈ ts, cleanSpan t) :
    Strips (render_rich_text ts) (String.join (ts.map fun t => t.plain_text)) := by
  induction ts with
  | nil =>
    intro rest
    have hed : ("" : String).data = [] := by decide
    have h0 : render_rich_text [] = "" := rfl
    have h1 : String.join (List.map (fun t : RichTextSpan => t.plain_text) []) = "" := rfl
    rw [h0, h1, hed]
    rfl
  | cons t ts ih =>
    have hstep := strips_renderSpan t (hts t (List.mem_cons_self t ts))
    have ihh := ih fun u hu => hts u (List.mem_cons_of_mem t hu)
    have e1 : render_rich_text (t :: ts) = renderSpan t ++ render_rich_text ts := by
      simp only [render_rich_text, List.map_cons, join_cons]
    have e2 : String.join (List.map (fun u : RichTextSpan => u.plain_text) (t :: ts)) =
        t.plain_text ++ String.join (List.map (fun u : RichTextSpan => u.plain_text) ts) := by
      simp only [List.map_cons, join_cons]
    rw [e1, e2]
    exact strips_append hstep ihh

/-- C4 (amended): for spans whose plain text contains no `<` and whose hrefs
contain no `>` and no newline, stripping all HTML tags from the composed
rich text recovers exactly the concatenation of the spans' `plain_text`
fields.  The unrestricted claim fails because no escaping is performed: a
span whose plain text is itself tag-shaped is destroyed by the stripper. -/
theorem c4_strip_roundtrip_amended (ts : List RichTextSpan)
    (hts : ∀ t ∈ ts, cleanSpan t) :
    stripTags (render_rich_text ts) = String.join (ts.map fun t => t.plain_text) := by
  have h := strips_render_rich_text ts hts []
  rw [List.append_nil] at h
  have h2 : stripGo none [] = [] := rfl
  rw [h2, List.append_nil] at h
  apply String.ext
  rw [show (stripTags (render_rich_text ts)).data =
    stripGo none (render_rich_text ts).data from rfl, h]

/-- Counterexample to C4 as stated: a single span whose plain text is `<x>`
renders to `<x>` (no escaping), which the tag stripper deletes entirely. -/
theorem c4_strip_roundtrip_counterexample :
    ¬ (stripTags (render_rich_text [plainSpan "<x>"]) =
      String.join ([plainSpan "<x>"].map fun t => t.plain_text)) := by
  decide

instance cleanSpanDecidable (t : RichTextSpan) : Decidable (cleanSpan t) := by
  unfold cleanSpan
  infer_instance

/-- Witness for C4 (amended) at a clean annotated span with an href. -/
theorem c4_strip_roundtrip_amended_witness :
    stripTags (render_rich_text
        [⟨"a>b", true, true, false, false, false, some "https://e.com/x"⟩]) =
      String.join (([⟨"a>b", true, true, false, false, false,
        some "https://e.com/x"⟩] : List RichTextSpan).map fun t => t.plain_text) :=
  c4_strip_roundtrip_amended _ (by decide)
